import Mathlib

/-!
Shallow embedding of the CalendarAPP core (src/calendar_app/model) in Lean 4.

Civil dates are embedded as proleptic-Gregorian ordinals (`Nat`, day number
with 0001-01-01 = 1), mirroring Python `datetime.date.toordinal`: date
comparison is `Nat` comparison, `timedelta(days=1)` is `+ 1`, and
`(a - b).days` is `(a : Int) - b`.  Dictionaries keyed by dates are embedded
as insertion-ordered association lists `List (Nat × α)` with first-match
lookup, which agrees with Python `dict` on the unique-key maps the code
builds.  Functions that `raise` are embedded with `Except`/`Option` results.
-/

set_option autoImplicit false

namespace CalendarApp

/-- Gregorian leap-year test, as Python `calendar.isleap`. -/
def isLeapYear (y : Nat) : Bool :=
  y % 4 == 0 && (y % 100 != 0 || y % 400 == 0)

/-- Number of days in month `m` of year `y` (months 1..12). -/
def daysInMonth (y m : Nat) : Nat :=
  if m = 2 then (if isLeapYear y then 29 else 28)
  else if m = 4 ∨ m = 6 ∨ m = 9 ∨ m = 11 then 30
  else 31

/-- Days in year `y` strictly before month `m`. -/
def daysBeforeMonth (y : Nat) : Nat → Nat
  | 0 => 0
  | 1 => 0
  | m + 2 => daysBeforeMonth y (m + 1) + daysInMonth y (m + 1)

/-- Days strictly before January 1st of year `y` (ordinal of the previous
December 31st). -/
def daysBeforeYear (y : Nat) : Nat :=
  (y - 1) * 365 + (y - 1) / 4 - (y - 1) / 100 + (y - 1) / 400

/-- Proleptic-Gregorian ordinal of the civil date `y-m-d`, as Python
`date(y, m, d).toordinal()` (0001-01-01 has ordinal 1). -/
def toOrd (y m d : Nat) : Nat :=
  daysBeforeYear y + daysBeforeMonth y m + d

/-- Validity of civil components `y-m-d`: Python `date(y, m, d)` succeeds
exactly on these (year positivity aside, which all inputs here satisfy). -/
def validYMD (y m d : Nat) : Prop :=
  1 ≤ m ∧ m ≤ 12 ∧ 1 ≤ d ∧ d ≤ daysInMonth y m

instance (y m d : Nat) : Decidable (validYMD y m d) := by
  unfold validYMD; infer_instance

/-- Ordinals of the inclusive range `[s, e]`, in ascending order: the embedding
of a Python `while current <= e: ... current += timedelta(days=1)` loop. -/
def dateRange (s e : Nat) : List Nat :=
  List.range' s (e + 1 - s)

/-- First-match lookup in an association list, as Python `dict.get` on the
unique-key maps this program builds. -/
def mapLookup {α : Type} (m : List (Nat × α)) (d : Nat) : Option α :=
  match m with
  | [] => none
  | (k, v) :: rest => if k = d then some v else mapLookup rest d

/-- DayClassification enum exactly as defined in `day.py` lines 11-17.
Note: the enum has no member named NO_VISA_COVERAGE, although
`timeline.py` line 112 refers to one (see the C1 analysis below). -/
inductive DayClassification where
  | UK_RESIDENCE
  | SHORT_TRIP
  | LONG_TRIP
  | PRE_ENTRY
  | UNKNOWN
  deriving DecidableEq, Repr

/-- Validated trip record (`trips.py`), dates as ordinals. -/
structure Trip where
  id : String
  departure_date_obj : Nat
  return_date_obj : Nat
  trip_length_days : Int
  is_short_trip : Bool
  from_airport : Option String := none
  to_airport : Option String := none
  deriving DecidableEq, Repr

/-- Validated visa-period record (`visaPeriods.py`), dates as ordinals. -/
structure VisaPeriod where
  id : String
  label : String := ""
  start_date_obj : Nat
  end_date_obj : Nat
  gross_salary : String := ""
  deriving DecidableEq, Repr

/-- Result of `TripClassifier.get_trip_summary`. -/
structure TripSummary where
  classification : String
  is_trip_day : Bool
  trip_id : Option String
  trip_type : Option String
  departure_date : Option Nat
  return_date : Option Nat
  trip_length_days : Option Int
  from_airport : Option String
  to_airport : Option String
  deriving DecidableEq, Repr

/-- Result of `VisaClassifier.get_visaPeriod_summary`. -/
structure VisaSummary where
  has_visaPeriod : Bool
  visaPeriod_id : Option String
  visaPeriod_label : Option String
  start_date : Option Nat
  end_date : Option Nat
  gross_salary : Option String
  days_in_period : Option Int
  day_number_in_period : Option Int
  deriving DecidableEq, Repr

/-- Calendar Day (`day.py`): date, classification, optional annotations.
The `visaPeriod` field models the attribute of the same name that
`update_day_classification` sets dynamically on a `Day` object. -/
structure Day where
  date : Nat
  classification : DayClassification
  trip_info : Option TripSummary := none
  visaPeriod_info : Option VisaSummary := none
  visaPeriod : Option String := none
  deriving DecidableEq, Repr

/-- Validated application configuration (`config.py`): window years, the
civil components of `first_entry_date`, and `objective_years`. -/
structure AppConfig where
  start_year : Nat
  end_year : Nat
  fe_year : Nat
  fe_month : Nat
  fe_day : Nat
  objective_years : Nat
  deriving DecidableEq, Repr

/-- First-entry ordinal, as `config.first_entry_date_obj`. -/
def AppConfig.firstEntry (cfg : AppConfig) : Nat :=
  toOrd cfg.fe_year cfg.fe_month cfg.fe_day

/-- Ordinal of January 1st of the window start year. -/
def AppConfig.timelineStart (cfg : AppConfig) : Nat :=
  toOrd cfg.start_year 1 1

/-- Ordinal of December 31st of the window end year. -/
def AppConfig.timelineEnd (cfg : AppConfig) : Nat :=
  toOrd cfg.end_year 12 31

/-! Trip Classifier (`trips.py`). -/

/-- Inclusive span of a trip as a date list, in ascending order. -/
def tripSpan (t : Trip) : List Nat :=
  dateRange t.departure_date_obj t.return_date_obj

/-- Membership of a date in a trip inclusive span. -/
def inTripSpan (t : Trip) (d : Nat) : Prop :=
  t.departure_date_obj ≤ d ∧ d ≤ t.return_date_obj

instance (t : Trip) (d : Nat) : Decidable (inTripSpan t d) := by
  unfold inTripSpan; infer_instance

/-- Inner loop of `TripClassifier._build_trip_day_map`: map each listed date to
the trip, failing when a date is already claimed (naming both trip ids). -/
def insertTripDays (t : Trip) :
    List (Nat × Trip) → List Nat → Except String (List (Nat × Trip))
  | m, [] => .ok m
  | m, d :: ds =>
    match mapLookup m d with
    | some other =>
      .error ("Date appears in multiple trips: " ++ other.id ++ " and " ++ t.id)
    | none => insertTripDays t ((d, t) :: m) ds

/-- Outer loop of `TripClassifier._build_trip_day_map` over the trip list. -/
def buildTripDayMapGo :
    List (Nat × Trip) → List Trip → Except String (List (Nat × Trip))
  | m, [] => .ok m
  | m, t :: ts =>
    match insertTripDays t m (tripSpan t) with
    | .error e => .error e
    | .ok m2 => buildTripDayMapGo m2 ts

/-- TripClassifier construction (`_build_trip_day_map`): builds the
date-to-trip map or fails on a doubly claimed date. -/
def buildTripDayMap (trips : List Trip) : Except String (List (Nat × Trip)) :=
  buildTripDayMapGo [] trips

/-- get_day_trip_info: trip record covering a date, if any. -/
def get_day_trip_info (m : List (Nat × Trip)) (d : Nat) : Option Trip :=
  mapLookup m d

/-- is_trip_day query. -/
def is_trip_day (m : List (Nat × Trip)) (d : Nat) : Bool :=
  (get_day_trip_info m d).isSome

/-- is_short_trip_day query: the date belongs to a trip flagged short. -/
def is_short_trip_day (m : List (Nat × Trip)) (d : Nat) : Bool :=
  match get_day_trip_info m d with
  | none => false
  | some t => t.is_short_trip

/-- is_long_trip_day query: the date belongs to a trip not flagged short. -/
def is_long_trip_day (m : List (Nat × Trip)) (d : Nat) : Bool :=
  match get_day_trip_info m d with
  | none => false
  | some t => !t.is_short_trip

/-- get_trip_summary with the defined no-trip result. -/
def get_trip_summary (m : List (Nat × Trip)) (d : Nat) : TripSummary :=
  match get_day_trip_info m d with
  | none =>
    { classification := "UK_RESIDENCE", is_trip_day := false, trip_id := none,
      trip_type := none, departure_date := none, return_date := none,
      trip_length_days := none, from_airport := none, to_airport := none }
  | some t =>
    { classification := if t.is_short_trip then "SHORT_TRIP" else "LONG_TRIP",
      is_trip_day := true, trip_id := some t.id,
      trip_type := some (if t.is_short_trip then "short" else "long"),
      departure_date := some t.departure_date_obj,
      return_date := some t.return_date_obj,
      trip_length_days := some t.trip_length_days,
      from_airport := t.from_airport, to_airport := t.to_airport }

/-! Visa Coverage Classifier (`visaPeriods.py`). -/

/-- Stable insertion step for sorting periods by start date. -/
def insertByStart (p : VisaPeriod) : List VisaPeriod → List VisaPeriod
  | [] => [p]
  | q :: qs =>
    if p.start_date_obj ≤ q.start_date_obj then p :: q :: qs
    else q :: insertByStart p qs

/-- Stable sort of visa periods by start date, as the Python
`sorted(..., key=lambda x: x["start_date_obj"])`. -/
def sortByStart : List VisaPeriod → List VisaPeriod
  | [] => []
  | p :: ps => insertByStart p (sortByStart ps)

/-- Adjacent-pair validation in `_build_visaPeriod_day_map`: overlap check
first (new start at or before previous end), then the gap check guarded by
the window conditions exactly as written in the source. -/
def periodPairCheck (cfg : AppConfig) (prev cur : VisaPeriod) : Option String :=
  if cur.start_date_obj ≤ prev.end_date_obj then
    some ("Visa period " ++ cur.id ++ " overlaps with " ++ prev.id)
  else if prev.end_date_obj + 1 < cur.start_date_obj ∧
      cfg.timelineStart ≤ prev.end_date_obj ∧
      cur.start_date_obj ≤ cfg.timelineEnd then
    some ("Gap found between visa periods " ++ prev.id ++ " and " ++ cur.id ++
      ". Expected continuous periods.")
  else none

/-- Inner loop of `_build_visaPeriod_day_map`: map the in-window dates of a
period, with the defensive duplicate check. -/
def insertVisaDays (cfg : AppConfig) (p : VisaPeriod) :
    List (Nat × VisaPeriod) → List Nat → Except String (List (Nat × VisaPeriod))
  | m, [] => .ok m
  | m, d :: ds =>
    if cfg.timelineStart ≤ d ∧ d ≤ cfg.timelineEnd then
      match mapLookup m d with
      | some other =>
        .error ("Date appears in multiple visa periods: " ++ other.id ++
          " and " ++ p.id)
      | none => insertVisaDays cfg p ((d, p) :: m) ds
    else insertVisaDays cfg p m ds

/-- Outer loop of `_build_visaPeriod_day_map` over the sorted periods,
carrying the previous period for the adjacent-pair checks. -/
def buildVisaGo (cfg : AppConfig) :
    Option VisaPeriod → List (Nat × VisaPeriod) → List VisaPeriod →
    Except String (List (Nat × VisaPeriod))
  | _, m, [] => .ok m
  | none, m, p :: ps =>
    match insertVisaDays cfg p m (dateRange p.start_date_obj p.end_date_obj) with
    | .error e => .error e
    | .ok m2 => buildVisaGo cfg (some p) m2 ps
  | some pv, m, p :: ps =>
    match periodPairCheck cfg pv p with
    | some e => .error e
    | none =>
      match insertVisaDays cfg p m (dateRange p.start_date_obj p.end_date_obj) with
      | .error e => .error e
      | .ok m2 => buildVisaGo cfg (some p) m2 ps

/-- VisaClassifier construction (`_build_visaPeriod_day_map`): sort by start
date, validate adjacent pairs, and build the date-to-period map. -/
def buildVisaPeriodDayMap (cfg : AppConfig) (ps : List VisaPeriod) :
    Except String (List (Nat × VisaPeriod)) :=
  buildVisaGo cfg none [] (sortByStart ps)

/-- get_day_visaPeriod_info: visa period covering a date, if any. -/
def get_day_visaPeriod_info (m : List (Nat × VisaPeriod)) (d : Nat) :
    Option VisaPeriod :=
  mapLookup m d

/-- get_visaPeriod_summary with the defined no-coverage result and the
1-based day position within the covering period. -/
def get_visaPeriod_summary (m : List (Nat × VisaPeriod)) (d : Nat) : VisaSummary :=
  match get_day_visaPeriod_info m d with
  | none =>
    { has_visaPeriod := false, visaPeriod_id := none, visaPeriod_label := none,
      start_date := none, end_date := none, gross_salary := none,
      days_in_period := none, day_number_in_period := none }
  | some p =>
    { has_visaPeriod := true, visaPeriod_id := some p.id,
      visaPeriod_label := some p.label,
      start_date := some p.start_date_obj, end_date := some p.end_date_obj,
      gross_salary := some p.gross_salary,
      days_in_period := some ((p.end_date_obj : Int) - p.start_date_obj + 1),
      day_number_in_period := some ((d : Int) - p.start_date_obj + 1) }

/-! Timeline (`timeline.py`). -/

/-- Timeline state: the configured window years, the config, and the
insertion-ordered date-to-Day map. -/
structure DateTimeline where
  start_year : Nat
  end_year : Nat
  config : AppConfig
  days : List (Nat × Day)
  deriving DecidableEq, Repr

/-- DateTimeline._classify_day_from_trip_data.  The final branch of the
source returns `DayClassification.NO_VISA_COVERAGE`, but the enum in
`day.py` has no such member, so in Python that attribute access raises
`AttributeError`; the embedding returns `none` there. -/
def classifyDayFromTripData (cfg : AppConfig) (tm : List (Nat × Trip))
    (vm : List (Nat × VisaPeriod)) (d : Nat) : Option DayClassification :=
  if d < cfg.firstEntry then some .PRE_ENTRY
  else if is_short_trip_day tm d then some .SHORT_TRIP
  else if is_long_trip_day tm d then some .LONG_TRIP
  else if (get_visaPeriod_summary vm d).has_visaPeriod then some .UK_RESIDENCE
  else none

/-- Day construction step of `_generate_timeline`: classify, then attach the
trip and visa summaries where present. -/
def makeDay (cfg : AppConfig) (tm : List (Nat × Trip))
    (vm : List (Nat × VisaPeriod)) (d : Nat) : Option Day :=
  (classifyDayFromTripData cfg tm vm d).map fun c =>
    let ts := get_trip_summary tm d
    let vs := get_visaPeriod_summary vm d
    { date := d, classification := c,
      trip_info := if ts.is_trip_day then some ts else none,
      visaPeriod_info := if vs.has_visaPeriod then some vs else none }

/-- Loop of `_generate_timeline` over a date list; `none` when any day
fails to classify (the missing-enum-member AttributeError). -/
def generateDays (cfg : AppConfig) (tm : List (Nat × Trip))
    (vm : List (Nat × VisaPeriod)) : List Nat → Option (List (Nat × Day))
  | [] => some []
  | d :: ds =>
    match makeDay cfg tm vm d with
    | none => none
    | some day => (generateDays cfg tm vm ds).map (fun rest => (d, day) :: rest)

/-- DateTimeline construction (`__init__` + `_generate_timeline`). -/
def generateTimeline (cfg : AppConfig) (tm : List (Nat × Trip))
    (vm : List (Nat × VisaPeriod)) : Option DateTimeline :=
  (generateDays cfg tm vm (dateRange cfg.timelineStart cfg.timelineEnd)).map
    fun ds => ⟨cfg.start_year, cfg.end_year, cfg, ds⟩

/-- get_day: single-day lookup. -/
def DateTimeline.get_day (tl : DateTimeline) (d : Nat) : Option Day :=
  mapLookup tl.days d

/-- Ordinal of the first window day, January 1st of start_year. -/
def DateTimeline.windowStart (tl : DateTimeline) : Nat :=
  toOrd tl.start_year 1 1

/-- Ordinal of the last window day, December 31st of end_year. -/
def DateTimeline.windowEnd (tl : DateTimeline) : Nat :=
  toOrd tl.end_year 12 31

/-- Ordinal of the last day of month `m` of year `y`, as computed in
`get_days_in_month` (first day of next month minus one day). -/
def lastOfMonth (y m : Nat) : Nat :=
  if m = 12 then toOrd (y + 1) 1 1 - 1 else toOrd y (m + 1) 1 - 1

/-- Ordinal of Python `date.max`, 9999-12-31: `date` construction rejects
years outside 1..9999 with ValueError, and advancing a date past this
ordinal raises OverflowError. -/
def pyDateMaxOrd : Nat := toOrd 9999 12 31

/-- Day-collection loop shared by get_days_in_month and get_days_in_year:
walk the inclusive ordinal range and append each date present in the
timeline. -/
def DateTimeline.collectDays (tl : DateTimeline) (first last : Nat) : List Day :=
  (dateRange first last).filterMap tl.get_day

/-- get_days_in_month: days present in the timeline for a month.
`date(year, month, 1)` raises ValueError when the year is outside Python
range 1..9999 or the month is outside 1..12, and for month 12 of year 9999
the last-day computation `date(year + 1, 1, 1)` raises ValueError (year
10000); otherwise the collection loop runs and never reaches `date.max`,
so it cannot overflow. -/
def DateTimeline.get_days_in_month (tl : DateTimeline) (y m : Nat) :
    Except String (List Day) :=
  if ¬(1 ≤ y ∧ y ≤ 9999 ∧ 1 ≤ m ∧ m ≤ 12) then
    .error "ValueError: date out of range"
  else if m = 12 ∧ y = 9999 then
    .error "ValueError: year 10000 is out of range"
  else .ok (tl.collectDays (toOrd y m 1) (lastOfMonth y m))

/-- get_days_in_year: days present in the timeline for a year.  The
endpoint constructions `date(year, 1, 1)` and `date(year, 12, 31)` need a
year in 1..9999; for year 9999 the loop increments past `date.max` after
visiting December 31st and raises OverflowError, discarding the collected
list. -/
def DateTimeline.get_days_in_year (tl : DateTimeline) (y : Nat) :
    Except String (List Day) :=
  if ¬(1 ≤ y ∧ y ≤ 9999) then .error "ValueError: year out of range"
  else if y = 9999 then .error "OverflowError: date value out of range"
  else .ok (tl.collectDays (toOrd y 1 1) (toOrd y 12 31))

/-- Pointwise value update of the entry with the given key, leaving every
other entry (and the key order) unchanged: the embedding of mutating the
`Day` object found in the `days` dict. -/
def updateEntry {α : Type} (d : Nat) (f : α → α) :
    List (Nat × α) → List (Nat × α)
  | [] => []
  | (k, v) :: rest =>
    if k = d then (k, f v) :: rest else (k, v) :: updateEntry d f rest

/-- Python truthiness of an `Optional[str]` argument: `None` and the empty
string are falsy. -/
def strOptTruthy : Option String → Bool
  | none => false
  | some s => s ≠ ""

/-- Field assignments performed by `update_day_classification` on the found
`Day`: classification always, annotations only for truthy arguments (a
summary dict produced by this code is nonempty, hence truthy iff present). -/
def applyDayUpdate (c : DayClassification) (ti : Option TripSummary)
    (vp : Option String) (dy : Day) : Day :=
  let dy1 := { dy with classification := c }
  let dy2 := if ti.isSome then { dy1 with trip_info := ti } else dy1
  if strOptTruthy vp then { dy2 with visaPeriod := vp } else dy2

/-- update_day_classification: `false` and no change when the date has no
entry, else apply the update and return `true`. -/
def DateTimeline.update_day_classification (tl : DateTimeline) (d : Nat)
    (c : DayClassification) (ti : Option TripSummary) (vp : Option String) :
    DateTimeline × Bool :=
  match mapLookup tl.days d with
  | none => (tl, false)
  | some _ =>
    ({ tl with days := updateEntry d (applyDayUpdate c ti vp) tl.days }, true)

/-- update_date_range_classification: apply the per-day update across the
inclusive span, counting the days actually updated.  The updates are
applied in place; when the loop visits 9999-12-31 its final increment
raises OverflowError, so the count is never returned there (the mutations
up to that point persist). -/
def DateTimeline.update_date_range_classification (tl : DateTimeline)
    (s e : Nat) (c : DayClassification) (ti : Option TripSummary)
    (vp : Option String) : DateTimeline × Except String Nat :=
  let r := (dateRange s e).foldl
    (fun acc d =>
      let u := acc.1.update_day_classification d c ti vp
      (u.1, acc.2 + if u.2 then 1 else 0))
    (tl, 0)
  if s ≤ e ∧ e = pyDateMaxOrd then
    (r.1, .error "OverflowError: date value out of range")
  else (r.1, .ok r.2)

/-! Singleton accessor (`DateTimeline.from_config`). -/

/-- Class-level `DateTimeline._instance` registry. -/
structure SingletonState where
  inst : Option DateTimeline
  deriving DecidableEq, Repr

/-- from_config: reuse a cached instance with a matching range, fail on a
range mismatch (leaving the registry untouched), otherwise construct, and
cache the new instance when `use_singleton` is set.  A construction failure
(the classify AttributeError) propagates as an error. -/
def from_config (st : SingletonState) (cfg : AppConfig)
    (tm : List (Nat × Trip)) (vm : List (Nat × VisaPeriod))
    (use_singleton : Bool) : Except String DateTimeline × SingletonState :=
  match use_singleton, st.inst with
  | true, some t =>
    if t.start_year ≠ cfg.start_year ∨ t.end_year ≠ cfg.end_year then
      (.error "Timeline instance exists with a different range", st)
    else (.ok t, st)
  | true, none =>
    match generateTimeline cfg tm vm with
    | none => (.error "AttributeError: NO_VISA_COVERAGE", st)
    | some i => (.ok i, ⟨some i⟩)
  | false, _ =>
    match generateTimeline cfg tm vm with
    | none => (.error "AttributeError: NO_VISA_COVERAGE", st)
    | some i => (.ok i, st)

/-! Residency Statistics Engine (`ilr_statistics.py`, with the day-kind
predicates from `day.py`). -/

/-- Day.counts_as_ilr_in_uk_day. -/
def Day.counts_as_ilr_in_uk_day (dy : Day) (first_entry : Nat) : Bool :=
  first_entry ≤ dy.date && dy.classification == DayClassification.UK_RESIDENCE

/-- Day.counts_as_short_trip_day. -/
def Day.counts_as_short_trip_day (dy : Day) (first_entry : Nat) : Bool :=
  first_entry ≤ dy.date && dy.classification == DayClassification.SHORT_TRIP

/-- Day.counts_as_long_trip_day. -/
def Day.counts_as_long_trip_day (dy : Day) (first_entry : Nat) : Bool :=
  first_entry ≤ dy.date && dy.classification == DayClassification.LONG_TRIP

/-- Count record returned by the `get_ilr_counts_*` family. -/
structure IlrCounts where
  ilr_in_uk_days : Nat
  short_trip_days : Nat
  ilr_total_days : Nat
  long_trip_days : Nat
  pre_entry_days : Nat
  deriving DecidableEq, Repr

/-- Loop body shared by every `get_ilr_counts_*` granularity: bump the
matching bucket of one day. -/
def ilrBump (first_entry : Nat) (acc : IlrCounts) (dy : Day) : IlrCounts :=
  if dy.counts_as_ilr_in_uk_day first_entry then
    { acc with ilr_in_uk_days := acc.ilr_in_uk_days + 1 }
  else if dy.counts_as_short_trip_day first_entry then
    { acc with short_trip_days := acc.short_trip_days + 1 }
  else if dy.counts_as_long_trip_day first_entry then
    { acc with long_trip_days := acc.long_trip_days + 1 }
  else if dy.date < first_entry then
    { acc with pre_entry_days := acc.pre_entry_days + 1 }
  else acc

/-- Tally a day list into the count record, then set `ilr_total_days` to
the sum of the first two buckets, exactly as each source counting loop
finishes. -/
def ilrCountsOf (first_entry : Nat) (ds : List Day) : IlrCounts :=
  let c := ds.foldl (ilrBump first_entry) ⟨0, 0, 0, 0, 0⟩
  { c with ilr_total_days := c.ilr_in_uk_days + c.short_trip_days }

/-- Engine state: a classified timeline plus the configuration. -/
structure ILRStatisticsEngine where
  timeline : DateTimeline
  config : AppConfig
  deriving Repr

/-- get_ilr_counts_total: tally every day held by the timeline. -/
def ILRStatisticsEngine.get_ilr_counts_total (eng : ILRStatisticsEngine) :
    IlrCounts :=
  ilrCountsOf eng.config.firstEntry (eng.timeline.days.map Prod.snd)

/-- get_ilr_counts_for_month: tally the day list the timeline collects for
the month (the list `get_days_in_month` returns when it does not raise;
its Python date-cap errors propagate through this caller unchanged, so the
counts only exist on the non-raising domain this total model covers). -/
def ILRStatisticsEngine.get_ilr_counts_for_month (eng : ILRStatisticsEngine)
    (y m : Nat) : IlrCounts :=
  ilrCountsOf eng.config.firstEntry
    (eng.timeline.collectDays (toOrd y m 1) (lastOfMonth y m))

/-- get_ilr_counts_for_year: tally the day list the timeline collects for
the year, on the same non-raising domain as the underlying query. -/
def ILRStatisticsEngine.get_ilr_counts_for_year (eng : ILRStatisticsEngine)
    (y : Nat) : IlrCounts :=
  ilrCountsOf eng.config.firstEntry
    (eng.timeline.collectDays (toOrd y 1 1) (toOrd y 12 31))

/-- get_ilr_counts_for_date_range: tally the days found in the inclusive
range. -/
def ILRStatisticsEngine.get_ilr_counts_for_date_range (eng : ILRStatisticsEngine)
    (s e : Nat) : IlrCounts :=
  ilrCountsOf eng.config.firstEntry ((dateRange s e).filterMap eng.timeline.get_day)

/-- Progress record (`ILRProgress`); the float percentage is embedded as a
rational, exact for the formula the code computes. -/
structure ILRProgress where
  days_completed : Int
  days_required : Int
  days_remaining : Int
  percentage_complete : ℚ
  target_completion_date : Option Int
  is_complete : Bool
  deriving DecidableEq, Repr

/-- ILRStatisticsEngine._calculate_progress, with `date.today()` passed in
as the explicit parameter `today`. -/
def calculateProgress (days_completed days_required : Int)
    (calculation_date today : Nat) (scenario_type : String) : ILRProgress :=
  let days_remaining : Int := max 0 (days_required - days_completed)
  let percentage_complete : ℚ :=
    min 100 ((days_completed : ℚ) / (days_required : ℚ) * 100)
  let is_complete : Bool := days_required ≤ days_completed
  let target_completion_date : Option Int :=
    if is_complete = false ∧ calculation_date ≤ today then
      some ((calculation_date : Int) + days_remaining)
    else none
  { days_completed := days_completed, days_required := days_required,
    days_remaining := days_remaining,
    percentage_complete := percentage_complete,
    target_completion_date := target_completion_date,
    is_complete := is_complete }

/-- Anniversary date resolution in `_calculate_ilr_days_requirement`:
`date(y, m, d)`, falling back to day 28 of the same month when the
components are invalid for that year (Feb 29 in a non-leap year). -/
def resolveAnniv (y m d : Nat) : Nat :=
  if d ≤ daysInMonth y m then toOrd y m d else toOrd y m 28

/-- ILRStatisticsEngine._calculate_ilr_days_requirement: walk
`objective_years` anniversary intervals from the first-entry date, summing
each interval day count exactly. -/
def calculateIlrDaysRequirement (cfg : AppConfig) : Int :=
  (List.range cfg.objective_years).foldl
    (fun total k =>
      let year_start : Nat :=
        if k = 0 then cfg.firstEntry
        else resolveAnniv (cfg.fe_year + k) cfg.fe_month cfg.fe_day
      let year_end : Nat :=
        resolveAnniv (cfg.fe_year + k + 1) cfg.fe_month cfg.fe_day
      total + ((year_end : Int) - (year_start : Int)))
    0

/-! Concrete inputs used by witnesses and counterexamples. -/

/-- Configuration with window 2023-2024 and first entry 2023-06-01. -/
def cfgW : AppConfig := ⟨2023, 2024, 2023, 6, 1, 5⟩

/-- Configuration of the spec leap-year example: first entry 2020-03-01,
five objective years. -/
def cfg2020 : AppConfig := ⟨2020, 2030, 2020, 3, 1, 5⟩

/-- Configuration with window 2023 only and first entry 2023-01-01. -/
def cfgY2023 : AppConfig := ⟨2023, 2023, 2023, 1, 1, 5⟩

/-- Sample day used by witnesses. -/
def dayA : Day := { date := 100, classification := .UK_RESIDENCE }

/-- Second sample day used by witnesses. -/
def dayB : Day := { date := 101, classification := .SHORT_TRIP }

/-- Small two-day timeline used by witnesses. -/
def tlW : DateTimeline := ⟨2023, 2023, cfgY2023, [(100, dayA), (101, dayB)]⟩

/-- Timeline with no days, used by the out-of-range witness. -/
def tlEmpty : DateTimeline := ⟨2023, 2023, cfgY2023, []⟩

/-- Engine over the small witness timeline. -/
def engW : ILRStatisticsEngine := ⟨tlW, cfgY2023⟩

/-- Thirteen-day trip (2023-06-10 to 2023-06-22 would be 13 days; here we
use plain ordinals 200..212). -/
def trip13 : Trip :=
  { id := "T13", departure_date_obj := 200, return_date_obj := 212,
    trip_length_days := 13, is_short_trip := true }

/-- Fourteen-day trip at ordinals 300..313. -/
def trip14 : Trip :=
  { id := "T14", departure_date_obj := 300, return_date_obj := 313,
    trip_length_days := 14, is_short_trip := false }

/-- One-day trip with departure equal to return. -/
def trip1 : Trip :=
  { id := "T1", departure_date_obj := 400, return_date_obj := 400,
    trip_length_days := 1, is_short_trip := true }

/-- Witness trip list with pairwise disjoint spans. -/
def tripsW : List Trip := [trip13, trip14, trip1]

/-- Day map built from the witness trips (total by construction; evaluates
to the successful build result). -/
def tripMapW : List (Nat × Trip) :=
  match buildTripDayMap tripsW with
  | .ok m => m
  | .error _ => []

/-- Trip whose span overlaps `trip13`. -/
def tripClash : Trip :=
  { id := "TX", departure_date_obj := 205, return_date_obj := 230,
    trip_length_days := 26, is_short_trip := false }

/-- Visa period covering 2023-01-01 to 2023-03-31. -/
def visaP1 : VisaPeriod :=
  { id := "V1", start_date_obj := toOrd 2023 1 1, end_date_obj := toOrd 2023 3 31 }

/-- Visa period covering 2023-05-01 to 2023-12-31: together with `visaP1`
it leaves the whole of April 2023 uncovered inside the window. -/
def visaP2 : VisaPeriod :=
  { id := "V2", start_date_obj := toOrd 2023 5 1, end_date_obj := toOrd 2023 12 31 }

/-- Cached singleton timeline used by the singleton witness. -/
def tlSingleton : DateTimeline := ⟨2023, 2024, cfgW, []⟩

/-- Registry state holding the cached singleton. -/
def stW : SingletonState := ⟨some tlSingleton⟩

/-- Configuration whose range differs from the cached singleton. -/
def cfgOther : AppConfig := ⟨2025, 2026, 2025, 6, 1, 5⟩

/-! Helper lemmas about the association-list primitives. -/

/-- Lookup of a different key is unchanged by a pointwise entry update. -/
theorem mapLookup_updateEntry_ne {α : Type} (f : α → α) (l : List (Nat × α))
    {d e : Nat} (h : e ≠ d) :
    mapLookup (updateEntry d f l) e = mapLookup l e := by
  induction l with
  | nil => rfl
  | cons kv rest ih =>
    obtain ⟨k, v⟩ := kv
    by_cases hk : k = d
    · subst hk
      have hke : k ≠ e := fun hh => h hh.symm
      simp [updateEntry, mapLookup, hke]
    · by_cases hke : k = e
      · subst hke; simp [updateEntry, mapLookup, hk]
      · simp [updateEntry, mapLookup, hk, hke, ih]

/-- Lookup of the updated key returns the mapped previous value. -/
theorem mapLookup_updateEntry_self {α : Type} (f : α → α) (l : List (Nat × α))
    (d : Nat) :
    mapLookup (updateEntry d f l) d = (mapLookup l d).map f := by
  induction l with
  | nil => rfl
  | cons kv rest ih =>
    obtain ⟨k, v⟩ := kv
    by_cases hk : k = d
    · subst hk; simp [updateEntry, mapLookup]
    · simp [updateEntry, mapLookup, hk, ih]

/-- Pointwise entry update does not change the key sequence. -/
theorem updateEntry_map_fst {α : Type} (f : α → α) (l : List (Nat × α))
    (d : Nat) :
    (updateEntry d f l).map Prod.fst = l.map Prod.fst := by
  induction l with
  | nil => rfl
  | cons kv rest ih =>
    obtain ⟨k, v⟩ := kv
    by_cases hk : k = d
    · subst hk; simp [updateEntry]
    · simp [updateEntry, hk, ih]

/-- Presence of a day is unchanged by update_day_classification. -/
theorem update_day_get_day_isSome (tl : DateTimeline) (d x : Nat)
    (c : DayClassification) (ti : Option TripSummary) (vp : Option String) :
    (((tl.update_day_classification d c ti vp).1.get_day x).isSome) =
      ((tl.get_day x).isSome) := by
  unfold DateTimeline.update_day_classification
  cases h : mapLookup tl.days d with
  | none => rfl
  | some dy =>
    by_cases hx : x = d
    · subst hx
      simp [DateTimeline.get_day, mapLookup_updateEntry_self, h]
    · simp [DateTimeline.get_day, mapLookup_updateEntry_ne _ _ hx]

/-- Returned flag of update_day_classification is presence of the date. -/
theorem update_day_snd (tl : DateTimeline) (d : Nat) (c : DayClassification)
    (ti : Option TripSummary) (vp : Option String) :
    (tl.update_day_classification d c ti vp).2 = (tl.get_day d).isSome := by
  unfold DateTimeline.update_day_classification
  cases h : mapLookup tl.days d <;> simp [DateTimeline.get_day, h]

/-! C2 — leap-year-aware requirement for first entry 2020-03-01. -/

/-- C2 counterexample: the exact anniversary-interval sum for first entry
2020-03-01 with five objective years is not 1827 (the interval from
2020-03-01 to 2021-03-01 contains no leap day, since Feb 29 2020 precedes
the start). -/
theorem c2_requirement_not_1827 : calculateIlrDaysRequirement cfg2020 ≠ 1827 := by
  decide

/-- C2 (amended): the engine requirement for first entry 2020-03-01 and
objective_years = 5 equals 365 + 365 + 365 + 366 + 365 = 1826 days; only
the 2023-03-01 to 2024-03-01 interval contains a leap day. -/
theorem c2_requirement_1826 : calculateIlrDaysRequirement cfg2020 = 1826 := by
  decide

/-! C1 — timeline construction and day classification. -/

/-- C1: at the failing input (window 2023, first entry 2023-01-01, no trips
and no visa periods) timeline construction fails: classifying the uncovered
residence day 2023-01-01 reaches the branch that evaluates
`DayClassification.NO_VISA_COVERAGE`, a member the enum in `day.py` does
not define, so Python raises AttributeError instead of classifying. -/
theorem c1_construction_fails : generateTimeline cfgY2023 [] [] = none := by
  decide

/-! C5 — total = in-UK + short at every granularity, idempotence. -/

/-- C5: for each aggregation granularity the returned counts satisfy
ilr_total_days = ilr_in_uk_days + short_trip_days, and a repeated call on
the unchanged engine returns the same counts. -/
theorem c5_ilr_total_eq_sum (eng : ILRStatisticsEngine) (y m s e : Nat)
    (hm1 : 1 ≤ m) (hm2 : m ≤ 12) :
    ((eng.get_ilr_counts_total).ilr_total_days =
      (eng.get_ilr_counts_total).ilr_in_uk_days +
      (eng.get_ilr_counts_total).short_trip_days) ∧
    ((eng.get_ilr_counts_for_month y m).ilr_total_days =
      (eng.get_ilr_counts_for_month y m).ilr_in_uk_days +
      (eng.get_ilr_counts_for_month y m).short_trip_days) ∧
    ((eng.get_ilr_counts_for_year y).ilr_total_days =
      (eng.get_ilr_counts_for_year y).ilr_in_uk_days +
      (eng.get_ilr_counts_for_year y).short_trip_days) ∧
    ((eng.get_ilr_counts_for_date_range s e).ilr_total_days =
      (eng.get_ilr_counts_for_date_range s e).ilr_in_uk_days +
      (eng.get_ilr_counts_for_date_range s e).short_trip_days) ∧
    (eng.get_ilr_counts_total = eng.get_ilr_counts_total) ∧
    (eng.get_ilr_counts_for_month y m = eng.get_ilr_counts_for_month y m) ∧
    (eng.get_ilr_counts_for_year y = eng.get_ilr_counts_for_year y) ∧
    (eng.get_ilr_counts_for_date_range s e = eng.get_ilr_counts_for_date_range s e) :=
  ⟨rfl, rfl, rfl, rfl, rfl, rfl, rfl, rfl⟩

/-- C5 witness at the concrete engine `engW`, June 2023, range 100..101. -/
theorem c5_witness :
    (1 ≤ 6 ∧ (6 : Nat) ≤ 12) ∧
    (((engW.get_ilr_counts_total).ilr_total_days =
      (engW.get_ilr_counts_total).ilr_in_uk_days +
      (engW.get_ilr_counts_total).short_trip_days) ∧
    ((engW.get_ilr_counts_for_month 2023 6).ilr_total_days =
      (engW.get_ilr_counts_for_month 2023 6).ilr_in_uk_days +
      (engW.get_ilr_counts_for_month 2023 6).short_trip_days) ∧
    ((engW.get_ilr_counts_for_year 2023).ilr_total_days =
      (engW.get_ilr_counts_for_year 2023).ilr_in_uk_days +
      (engW.get_ilr_counts_for_year 2023).short_trip_days) ∧
    ((engW.get_ilr_counts_for_date_range 100 101).ilr_total_days =
      (engW.get_ilr_counts_for_date_range 100 101).ilr_in_uk_days +
      (engW.get_ilr_counts_for_date_range 100 101).short_trip_days) ∧
    (engW.get_ilr_counts_total = engW.get_ilr_counts_total) ∧
    (engW.get_ilr_counts_for_month 2023 6 = engW.get_ilr_counts_for_month 2023 6) ∧
    (engW.get_ilr_counts_for_year 2023 = engW.get_ilr_counts_for_year 2023) ∧
    (engW.get_ilr_counts_for_date_range 100 101 =
      engW.get_ilr_counts_for_date_range 100 101)) :=
  ⟨⟨by decide, by decide⟩, c5_ilr_total_eq_sum engW 2023 6 100 101 (by decide) (by decide)⟩

/-! C4 — progress metrics for a positive requirement. -/

/-- C4: with a positive required-day count, _calculate_progress returns
days_remaining = max 0 (required - completed), percentage =
min 100 (completed/required * 100), is_complete iff completed at or above
required; completion forces zero remaining, 100 percent and a null target;
an incomplete scenario with an as-of date not in the future projects
completion at the as-of date plus the remaining days. -/
theorem c4_calculate_progress (c r : Int) (calcDate today : Nat) (sc : String)
    (hr : 0 < r) :
    (calculateProgress c r calcDate today sc).days_remaining = max 0 (r - c) ∧
    (calculateProgress c r calcDate today sc).percentage_complete =
      min 100 ((c : ℚ) / (r : ℚ) * 100) ∧
    ((calculateProgress c r calcDate today sc).is_complete = true ↔ r ≤ c) ∧
    (r ≤ c →
      (calculateProgress c r calcDate today sc).days_remaining = 0 ∧
      (calculateProgress c r calcDate today sc).percentage_complete = 100 ∧
      (calculateProgress c r calcDate today sc).target_completion_date = none) ∧
    (c < r → calcDate ≤ today →
      (calculateProgress c r calcDate today sc).target_completion_date =
        some ((calcDate : Int) +
          (calculateProgress c r calcDate today sc).days_remaining)) := by
  refine ⟨rfl, rfl, ?_, ?_, ?_⟩
  · simp [calculateProgress]
  · intro h
    refine ⟨?_, ?_, ?_⟩
    · simp only [calculateProgress]
      omega
    · have hr0 : (0 : ℚ) < (r : ℚ) := by exact_mod_cast hr
      have h1 : (1 : ℚ) ≤ (c : ℚ) / (r : ℚ) := by
        rw [le_div_iff₀ hr0]
        simpa using (by exact_mod_cast h : (r : ℚ) ≤ (c : ℚ))
      have h100 : (100 : ℚ) ≤ (c : ℚ) / (r : ℚ) * 100 := by nlinarith
      simp only [calculateProgress]
      exact min_eq_left h100
    · simp [calculateProgress, decide_eq_true h]
  · intro h hle
    have hd : decide (r ≤ c) = false := decide_eq_false (by omega)
    simp [calculateProgress, hd, hle]

/-- C4 witness at completed 2, required 5, as-of 100, today 100. -/
theorem c4_witness :
    (0 : Int) < 5 ∧
    ((calculateProgress 2 5 100 100 "in_uk").days_remaining = max 0 (5 - 2) ∧
    (calculateProgress 2 5 100 100 "in_uk").percentage_complete =
      min 100 ((2 : ℚ) / (5 : ℚ) * 100) ∧
    ((calculateProgress 2 5 100 100 "in_uk").is_complete = true ↔ (5 : Int) ≤ 2) ∧
    ((5 : Int) ≤ 2 →
      (calculateProgress 2 5 100 100 "in_uk").days_remaining = 0 ∧
      (calculateProgress 2 5 100 100 "in_uk").percentage_complete = 100 ∧
      (calculateProgress 2 5 100 100 "in_uk").target_completion_date = none) ∧
    ((2 : Int) < 5 → (100 : Nat) ≤ 100 →
      (calculateProgress 2 5 100 100 "in_uk").target_completion_date =
        some ((100 : Int) +
          (calculateProgress 2 5 100 100 "in_uk").days_remaining))) :=
  ⟨by decide, c4_calculate_progress 2 5 100 100 "in_uk" (by decide)⟩

/-! C10 — frame property of update_day_classification. -/

/-- C10: update_day_classification changes no Calendar Day other than the
targeted date (other lookups and the key sequence are untouched), and with
both optional annotations omitted the targeted day keeps its annotations
and only its classification changes. -/
theorem c10_update_day_frame (tl : DateTimeline) (d e : Nat)
    (c : DayClassification) (ti : Option TripSummary) (vp : Option String)
    (hne : e ≠ d) :
    ((tl.update_day_classification d c ti vp).1.get_day e = tl.get_day e) ∧
    ((tl.update_day_classification d c ti vp).1.days.map Prod.fst =
      tl.days.map Prod.fst) ∧
    (ti = none → vp = none →
      (tl.update_day_classification d c ti vp).1.get_day d =
        (tl.get_day d).map (fun dy => { dy with classification := c })) := by
  unfold DateTimeline.update_day_classification
  cases h : mapLookup tl.days d with
  | none =>
    refine ⟨rfl, rfl, ?_⟩
    intro _ _
    simp [DateTimeline.get_day, h]
  | some dy =>
    refine ⟨?_, ?_, ?_⟩
    · simp [DateTimeline.get_day, mapLookup_updateEntry_ne _ _ hne]
    · simp [updateEntry_map_fst]
    · intro hti hvp
      subst hti; subst hvp
      simp [DateTimeline.get_day, mapLookup_updateEntry_self, h,
        applyDayUpdate, strOptTruthy]

/-- C10 witness at the two-day timeline, updating date 100 and observing
date 101. -/
theorem c10_witness :
    (101 : Nat) ≠ 100 ∧
    (((tlW.update_day_classification 100 .LONG_TRIP none none).1.get_day 101 =
      tlW.get_day 101) ∧
    ((tlW.update_day_classification 100 .LONG_TRIP none none).1.days.map Prod.fst =
      tlW.days.map Prod.fst) ∧
    ((none : Option TripSummary) = none → (none : Option String) = none →
      (tlW.update_day_classification 100 .LONG_TRIP none none).1.get_day 100 =
        (tlW.get_day 100).map (fun dy => { dy with classification := .LONG_TRIP }))) :=
  ⟨by decide, c10_update_day_frame tlW 100 101 .LONG_TRIP none none (by decide)⟩

/-! Lemmas about the trip day map construction. -/

/-- Membership in the span date list is membership in the inclusive span. -/
theorem mem_tripSpan (t : Trip) (d : Nat) :
    d ∈ tripSpan t ↔ inTripSpan t d := by
  unfold tripSpan dateRange inTripSpan
  rw [List.mem_range'_1]
  omega

/-- Successful span insertion requires every inserted date to be absent. -/
theorem insertTripDays_ok_none (t : Trip) (ds : List Nat)
    (m m2 : List (Nat × Trip)) (h : insertTripDays t m ds = .ok m2) :
    ∀ d ∈ ds, mapLookup m d = none := by
  induction ds generalizing m with
  | nil => intro d hd; cases hd
  | cons d0 rest ih =>
    intro d hd
    unfold insertTripDays at h
    cases hl : mapLookup m d0 with
    | some other => rw [hl] at h; cases h
    | none =>
      rw [hl] at h
      rcases List.mem_cons.mp hd with hd0 | hdr
      · subst hd0; exact hl
      · have := ih _ h d hdr
        by_cases hdd : d0 = d
        · subst hdd; exact hl
        · simpa [mapLookup, hdd] using this

/-- Lookup after a successful span insertion: inserted dates map to the
trip, all others are unchanged. -/
theorem insertTripDays_ok_lookup (t : Trip) (ds : List Nat)
    (m m2 : List (Nat × Trip)) (h : insertTripDays t m ds = .ok m2) (x : Nat) :
    mapLookup m2 x = if x ∈ ds then some t else mapLookup m x := by
  induction ds generalizing m with
  | nil =>
    unfold insertTripDays at h
    cases h
    simp
  | cons d0 rest ih =>
    unfold insertTripDays at h
    cases hl : mapLookup m d0 with
    | some other => rw [hl] at h; cases h
    | none =>
      rw [hl] at h
      rw [ih _ h]
      by_cases hx : x ∈ rest
      · simp [hx]
      · by_cases hxd : d0 = x
        · subst hxd; simp [hx, mapLookup]
        · simp [hx, hxd, mapLookup, Ne.symm hxd]

/-- Entries present before a successful outer build remain present. -/
theorem buildGo_ok_mono (ts : List Trip) (m m2 : List (Nat × Trip))
    (h : buildTripDayMapGo m ts = .ok m2) (x : Nat) (v : Trip)
    (hx : mapLookup m x = some v) : mapLookup m2 x = some v := by
  induction ts generalizing m with
  | nil => unfold buildTripDayMapGo at h; cases h; exact hx
  | cons t rest ih =>
    unfold buildTripDayMapGo at h
    cases hins : insertTripDays t m (tripSpan t) with
    | error e => rw [hins] at h; cases h
    | ok m1 =>
      rw [hins] at h
      refine ih _ h ?_
      rw [insertTripDays_ok_lookup t _ m m1 hins x]
      by_cases hsp : x ∈ tripSpan t
      · have := insertTripDays_ok_none t _ m m1 hins x hsp
        rw [this] at hx; cases hx
      · simpa [hsp] using hx

/-- Dates of any trip processed by a successful outer build are absent from
the incoming map. -/
theorem buildGo_ok_span_none (ts : List Trip) (m m2 : List (Nat × Trip))
    (h : buildTripDayMapGo m ts = .ok m2) :
    ∀ t ∈ ts, ∀ d, inTripSpan t d → mapLookup m d = none := by
  induction ts generalizing m with
  | nil => intro t ht; cases ht
  | cons t0 rest ih =>
    intro t ht d hd
    unfold buildTripDayMapGo at h
    cases hins : insertTripDays t0 m (tripSpan t0) with
    | error e => rw [hins] at h; cases h
    | ok m1 =>
      rw [hins] at h
      rcases List.mem_cons.mp ht with ht0 | htr
      · subst ht0
        exact insertTripDays_ok_none t _ m m1 hins d ((mem_tripSpan t d).mpr hd)
      · have h1 := ih _ h t htr d hd
        rw [insertTripDays_ok_lookup t0 _ m m1 hins d] at h1
        by_cases hsp : d ∈ tripSpan t0
        · rw [if_pos hsp] at h1; cases h1
        · rwa [if_neg hsp] at h1

/-- After a successful build, every date of every trip maps to that trip. -/
theorem buildGo_ok_lookup_span (ts : List Trip) (m m2 : List (Nat × Trip))
    (h : buildTripDayMapGo m ts = .ok m2) :
    ∀ t ∈ ts, ∀ d, inTripSpan t d → mapLookup m2 d = some t := by
  induction ts generalizing m with
  | nil => intro t ht; cases ht
  | cons t0 rest ih =>
    intro t ht d hd
    unfold buildTripDayMapGo at h
    cases hins : insertTripDays t0 m (tripSpan t0) with
    | error e => rw [hins] at h; cases h
    | ok m1 =>
      rw [hins] at h
      rcases List.mem_cons.mp ht with ht0 | htr
      · subst ht0
        refine buildGo_ok_mono rest m1 m2 h d t ?_
        rw [insertTripDays_ok_lookup t _ m m1 hins d,
          if_pos ((mem_tripSpan t d).mpr hd)]
      · exact ih _ h t htr d hd

/-- Successful build yields pairwise disjoint trip spans. -/
theorem buildGo_ok_pairwise (ts : List Trip) (m m2 : List (Nat × Trip))
    (h : buildTripDayMapGo m ts = .ok m2) :
    ts.Pairwise (fun t1 t2 => ∀ d, ¬(inTripSpan t1 d ∧ inTripSpan t2 d)) := by
  induction ts generalizing m with
  | nil => exact List.Pairwise.nil
  | cons t0 rest ih =>
    unfold buildTripDayMapGo at h
    cases hins : insertTripDays t0 m (tripSpan t0) with
    | error e => rw [hins] at h; cases h
    | ok m1 =>
      rw [hins] at h
      refine List.Pairwise.cons ?_ (ih _ h)
      intro t' ht' d hd
      have hnone := buildGo_ok_span_none rest m1 m2 h t' ht' d hd.2
      rw [insertTripDays_ok_lookup t0 _ m m1 hins d,
        if_pos ((mem_tripSpan t0 d).mpr hd.1)] at hnone
      cases hnone

/-! C6 — overlapping trips are a fatal construction error. -/

/-- C6: TripClassifier construction fails whenever two trips at distinct
positions have intersecting inclusive spans, and in any successfully
constructed classifier the spans of any two distinct trips are disjoint. -/
theorem c6_trip_overlap (trips : List Trip) :
    ((∃ pre a mid b post, trips = pre ++ a :: (mid ++ b :: post) ∧
        ∃ d, inTripSpan a d ∧ inTripSpan b d) →
      ∃ msg, buildTripDayMap trips = .error msg) ∧
    (∀ m, buildTripDayMap trips = .ok m →
      trips.Pairwise (fun t1 t2 => ∀ d, ¬(inTripSpan t1 d ∧ inTripSpan t2 d))) := by
  constructor
  · rintro ⟨pre, a, mid, b, post, hsplit, d, hda, hdb⟩
    cases hb : buildTripDayMap trips with
    | error msg => exact ⟨msg, rfl⟩
    | ok m =>
      exfalso
      have hp := buildGo_ok_pairwise trips [] m hb
      rw [hsplit] at hp
      have hab : ∀ x, ¬(inTripSpan a x ∧ inTripSpan b x) := by
        have h2 := (List.pairwise_append.mp hp).2.1
        have h3 := List.rel_of_pairwise_cons h2
          (List.mem_append_right mid (List.mem_cons_self b post))
        exact h3
      exact hab d ⟨hda, hdb⟩
  · intro m hm
    exact buildGo_ok_pairwise trips [] m hm

/-- C6 witness: building from two overlapping trips is not a success. -/
theorem c6_witness : (buildTripDayMap [trip13, tripClash]).isOk = false := by
  obtain ⟨msg, hmsg⟩ := (c6_trip_overlap [trip13, tripClash]).1
    ⟨[], trip13, [], tripClash, [],
      rfl, 205, by decide, by decide⟩
  rw [hmsg]; rfl

/-! C7 — short and long trip day queries at the 13/14-day boundary. -/

/-- C7: in a successfully built classifier whose trip records carry
is_short_trip = (trip_length_days < 14) and a length equal to the inclusive
span day count, every date of a 13-day trip answers short and not long,
every date of a 14-day trip answers long and not short, and a trip whose
departure equals its return is a 1-day short trip. -/
theorem c7_short_long_boundary (trips : List Trip) (m : List (Nat × Trip))
    (t : Trip) (hok : buildTripDayMap trips = .ok m) (ht : t ∈ trips)
    (hflag : t.is_short_trip = decide (t.trip_length_days < 14))
    (hlen : t.trip_length_days =
      (t.return_date_obj : Int) - (t.departure_date_obj : Int) + 1) :
    (t.trip_length_days = 13 → ∀ d, inTripSpan t d →
      is_short_trip_day m d = true ∧ is_long_trip_day m d = false) ∧
    (t.trip_length_days = 14 → ∀ d, inTripSpan t d →
      is_long_trip_day m d = true ∧ is_short_trip_day m d = false) ∧
    (t.departure_date_obj = t.return_date_obj →
      t.trip_length_days = 1 ∧
      is_short_trip_day m t.departure_date_obj = true) := by
  have hlook : ∀ d, inTripSpan t d → mapLookup m d = some t :=
    fun d hd => buildGo_ok_lookup_span trips [] m hok t ht d hd
  refine ⟨?_, ?_, ?_⟩
  · intro h13 d hd
    have := hlook d hd
    rw [h13] at hflag
    constructor
    · simp [is_short_trip_day, get_day_trip_info, this, hflag]
    · simp [is_long_trip_day, get_day_trip_info, this, hflag]
  · intro h14 d hd
    have := hlook d hd
    rw [h14] at hflag
    constructor
    · simp [is_long_trip_day, get_day_trip_info, this, hflag]
    · simp [is_short_trip_day, get_day_trip_info, this, hflag]
  · intro heq
    have h1 : t.trip_length_days = 1 := by rw [hlen, heq]; ring
    refine ⟨h1, ?_⟩
    have hself : inTripSpan t t.departure_date_obj := by
      unfold inTripSpan; omega
    have := hlook _ hself
    rw [h1] at hflag
    simp [is_short_trip_day, get_day_trip_info, this, hflag]

/-- C7 witness at the concrete witness trips. -/
theorem c7_witness :
    (buildTripDayMap tripsW = .ok tripMapW ∧ trip13 ∈ tripsW ∧
      trip13.is_short_trip = decide (trip13.trip_length_days < 14) ∧
      trip13.trip_length_days =
        (trip13.return_date_obj : Int) - (trip13.departure_date_obj : Int) + 1) ∧
    ((trip13.trip_length_days = 13 → ∀ d, inTripSpan trip13 d →
      is_short_trip_day tripMapW d = true ∧ is_long_trip_day tripMapW d = false) ∧
    (trip13.trip_length_days = 14 → ∀ d, inTripSpan trip13 d →
      is_long_trip_day tripMapW d = true ∧ is_short_trip_day tripMapW d = false) ∧
    (trip13.departure_date_obj = trip13.return_date_obj →
      trip13.trip_length_days = 1 ∧
      is_short_trip_day tripMapW trip13.departure_date_obj = true)) :=
  ⟨⟨rfl, by decide, by decide, by decide⟩,
    c7_short_long_boundary tripsW tripMapW trip13 rfl (by decide)
      (by decide) (by decide)⟩

/-! Lemmas about the visa day map construction. -/

/-- Membership through the stable insertion step. -/
theorem mem_insertByStart (p q : VisaPeriod) (l : List VisaPeriod) :
    q ∈ insertByStart p l ↔ q = p ∨ q ∈ l := by
  induction l with
  | nil => simp [insertByStart]
  | cons r rs ih =>
    unfold insertByStart
    by_cases hle : p.start_date_obj ≤ r.start_date_obj
    · simp [hle]
    · simp [hle, ih]
      tauto

/-- Sorting by start date preserves membership. -/
theorem mem_sortByStart (ps : List VisaPeriod) (q : VisaPeriod) :
    q ∈ sortByStart ps ↔ q ∈ ps := by
  induction ps with
  | nil => simp [sortByStart]
  | cons p rest ih =>
    unfold sortByStart
    rw [mem_insertByStart, ih, List.mem_cons]

/-- Success of the outer visa build loop forces every adjacent pair of the
processed list (prefixed by the carried previous period) to be contiguous:
strictly increasing with no day between them.  The validity hypotheses are
the pre-validation of §6: nonempty periods contained in the window. -/
theorem buildVisaGo_ok_chain (cfg : AppConfig) (l : List VisaPeriod)
    (hval : ∀ p ∈ l, p.start_date_obj ≤ p.end_date_obj ∧
      cfg.timelineStart ≤ p.start_date_obj ∧
      p.end_date_obj ≤ cfg.timelineEnd) :
    ∀ (prev : Option VisaPeriod) (m m2 : List (Nat × VisaPeriod)),
      (∀ pv ∈ prev, pv.start_date_obj ≤ pv.end_date_obj ∧
        cfg.timelineStart ≤ pv.start_date_obj ∧
        pv.end_date_obj ≤ cfg.timelineEnd) →
      buildVisaGo cfg prev m l = .ok m2 →
      List.Chain'
        (fun a b => a.end_date_obj < b.start_date_obj ∧
          b.start_date_obj ≤ a.end_date_obj + 1)
        (prev.toList ++ l) := by
  induction l with
  | nil =>
    intro prev m m2 _ _
    cases prev <;> simp [List.Chain']
  | cons p ps ih =>
    intro prev m m2 hprev h
    have hvp := hval p (List.mem_cons_self p ps)
    have hvrest : ∀ q ∈ ps, q.start_date_obj ≤ q.end_date_obj ∧
        cfg.timelineStart ≤ q.start_date_obj ∧
        q.end_date_obj ≤ cfg.timelineEnd :=
      fun q hq => hval q (List.mem_cons_of_mem p hq)
    cases prev with
    | none =>
      unfold buildVisaGo at h
      cases hins : insertVisaDays cfg p m (dateRange p.start_date_obj p.end_date_obj) with
      | error e => rw [hins] at h; cases h
      | ok m1 =>
        rw [hins] at h
        have := ih hvrest (some p) m1 m2 (by intro pv hpv; cases hpv; exact hvp) h
        simpa using this
    | some pv =>
      unfold buildVisaGo at h
      cases hchk : periodPairCheck cfg pv p with
      | some e => rw [hchk] at h; cases h
      | none =>
        rw [hchk] at h
        cases hins : insertVisaDays cfg p m (dateRange p.start_date_obj p.end_date_obj) with
        | error e => rw [hins] at h; cases h
        | ok m1 =>
          rw [hins] at h
          have hrest := ih hvrest (some p) m1 m2
            (by intro q hq; cases hq; exact hvp) h
          have hgood : pv.end_date_obj < p.start_date_obj ∧
              p.start_date_obj ≤ pv.end_date_obj + 1 := by
            have hpv := hprev pv rfl
            unfold periodPairCheck at hchk
            split at hchk
            · cases hchk
            · split at hchk
              · cases hchk
              · constructor
                · omega
                · by_contra hcon
                  rename_i h1 h2
                  exact h2 ⟨by omega, by omega, by omega⟩
          simp only [Option.toList, List.cons_append, List.nil_append] at hrest ⊢
          exact List.chain'_cons.mpr ⟨hgood, by simpa using hrest⟩

/-! C3 — visa periods must tile without gaps or overlaps. -/

/-- C3: for pre-validated periods (nonempty, contained in the window),
VisaClassifier construction fails whenever the start-date-sorted sequence
has an adjacent pair that overlaps (new start at or before previous end) or
leaves a gap (at least one uncovered day between them; under containment
every such day lies inside the window). -/
theorem c3_visa_gap_overlap (cfg : AppConfig) (ps : List VisaPeriod)
    (hval : ∀ p ∈ ps, p.start_date_obj ≤ p.end_date_obj ∧
      cfg.timelineStart ≤ p.start_date_obj ∧
      p.end_date_obj ≤ cfg.timelineEnd)
    (hbad : ∃ l1 a b l2, sortByStart ps = l1 ++ a :: b :: l2 ∧
      (b.start_date_obj ≤ a.end_date_obj ∨
        a.end_date_obj + 1 < b.start_date_obj)) :
    ∃ msg, buildVisaPeriodDayMap cfg ps = .error msg := by
  cases hb : buildVisaPeriodDayMap cfg ps with
  | error msg => exact ⟨msg, rfl⟩
  | ok m =>
    exfalso
    have hvs : ∀ p ∈ sortByStart ps, p.start_date_obj ≤ p.end_date_obj ∧
        cfg.timelineStart ≤ p.start_date_obj ∧
        p.end_date_obj ≤ cfg.timelineEnd :=
      fun p hp => hval p ((mem_sortByStart ps p).mp hp)
    have hchain := buildVisaGo_ok_chain cfg (sortByStart ps) hvs none [] m
      (by intro pv hpv; cases hpv) hb
    obtain ⟨l1, a, b, l2, hsplit, hab⟩ := hbad
    simp only [Option.toList, List.nil_append] at hchain
    rw [hsplit] at hchain
    have h2 := (List.chain'_append.mp hchain).2.1
    have h3 := (List.chain'_cons.mp h2).1
    omega

/-- C3 witness: periods leaving April 2023 uncovered inside the 2023 window
do not build successfully. -/
theorem c3_witness : (buildVisaPeriodDayMap cfgY2023 [visaP1, visaP2]).isOk = false := by
  obtain ⟨msg, hmsg⟩ := c3_visa_gap_overlap cfgY2023 [visaP1, visaP2]
    (by decide)
    ⟨[], visaP1, visaP2, [], by decide, Or.inr (by decide)⟩
  rw [hmsg]; rfl

/-! C9 — singleton accessor behavior. -/

/-- Unfolding equation of from_config for a populated registry. -/
theorem from_config_some (cfg : AppConfig) (tm : List (Nat × Trip))
    (vm : List (Nat × VisaPeriod)) (st : SingletonState) (t0 : DateTimeline)
    (h : st.inst = some t0) :
    from_config st cfg tm vm true =
      if t0.start_year ≠ cfg.start_year ∨ t0.end_year ≠ cfg.end_year then
        (.error "Timeline instance exists with a different range", st)
      else (.ok t0, st) := by
  obtain ⟨inst0⟩ := st
  cases inst0 with
  | none => exact absurd h (by simp)
  | some t1 =>
    obtain rfl : t1 = t0 := by simpa using h
    rfl

/-- Unfolding equation of from_config for an empty registry. -/
theorem from_config_none (cfg : AppConfig) (tm : List (Nat × Trip))
    (vm : List (Nat × VisaPeriod)) (st : SingletonState) (h : st.inst = none) :
    from_config st cfg tm vm true =
      match generateTimeline cfg tm vm with
      | none => (.error "AttributeError: NO_VISA_COVERAGE", st)
      | some i => (.ok i, ⟨some i⟩) := by
  obtain ⟨inst0⟩ := st
  cases inst0 with
  | none => rfl
  | some t1 => exact absurd h (by simp)

/-- Generated timelines carry the configured window years. -/
theorem generateTimeline_years (cfg : AppConfig) (tm : List (Nat × Trip))
    (vm : List (Nat × VisaPeriod)) (i : DateTimeline)
    (h : generateTimeline cfg tm vm = some i) :
    i.start_year = cfg.start_year ∧ i.end_year = cfg.end_year := by
  unfold generateTimeline at h
  cases hgen : generateDays cfg tm vm (dateRange cfg.timelineStart cfg.timelineEnd) with
  | none => rw [hgen] at h; cases h
  | some ds =>
    rw [hgen] at h
    have h1 : (⟨cfg.start_year, cfg.end_year, cfg, ds⟩ : DateTimeline) = i := by
      simpa using h
    subst h1
    exact ⟨rfl, rfl⟩

/-- C9: with a cached instance whose range matches the requested config, the
accessor returns exactly the cached instance and leaves the registry
unchanged; with a different range (no reset, singleton not opted out) it
returns an error and leaves the cached instance in place; and any successful
singleton call caches the very instance it returns with the requested range,
so two same-range calls return the identical instance. -/
theorem c9_singleton_accessor (st : SingletonState) (t : DateTimeline)
    (cfg cfg2 : AppConfig)
    (tm tm2 : List (Nat × Trip)) (vm vm2 : List (Nat × VisaPeriod))
    (hinst : st.inst = some t)
    (hs : t.start_year = cfg.start_year) (he : t.end_year = cfg.end_year)
    (hdiff : cfg2.start_year ≠ cfg.start_year ∨ cfg2.end_year ≠ cfg.end_year) :
    (from_config st cfg tm vm true = (.ok t, st)) ∧
    (from_config st cfg2 tm2 vm2 true =
      (.error "Timeline instance exists with a different range", st)) ∧
    (∀ (st0 : SingletonState) (tm0 : List (Nat × Trip))
      (vm0 : List (Nat × VisaPeriod)) (u : DateTimeline) (st1 : SingletonState),
      from_config st0 cfg tm0 vm0 true = (.ok u, st1) →
      st1.inst = some u ∧ u.start_year = cfg.start_year ∧
        u.end_year = cfg.end_year) := by
  refine ⟨?_, ?_, ?_⟩
  · rw [from_config_some cfg tm vm st t hinst]
    simp [hs, he]
  · rw [from_config_some cfg2 tm2 vm2 st t hinst]
    have hcond : t.start_year ≠ cfg2.start_year ∨ t.end_year ≠ cfg2.end_year := by
      rcases hdiff with h | h
      · exact Or.inl (by omega)
      · exact Or.inr (by omega)
    rw [if_pos hcond]
  · intro st0 tm0 vm0 u st1 h
    cases hst0 : st0.inst with
    | some t0 =>
      rw [from_config_some cfg tm0 vm0 st0 t0 hst0] at h
      by_cases hc : t0.start_year ≠ cfg.start_year ∨ t0.end_year ≠ cfg.end_year
      · rw [if_pos hc] at h
        cases h
      · rw [if_neg hc] at h
        injection h with h1 h2
        injection h1 with h1
        push_neg at hc
        subst h1
        exact ⟨by rw [← h2, hst0], hc.1, hc.2⟩
    | none =>
      rw [from_config_none cfg tm0 vm0 st0 hst0] at h
      cases hg : generateTimeline cfg tm0 vm0 with
      | none => rw [hg] at h; cases h
      | some i =>
        rw [hg] at h
        injection h with h1 h2
        injection h1 with h1
        obtain ⟨hy1, hy2⟩ := generateTimeline_years cfg tm0 vm0 i hg
        refine ⟨?_, ?_, ?_⟩
        · rw [← h2, ← h1]
        · rw [← h1]; exact hy1
        · rw [← h1]; exact hy2

/-- C9 witness at the cached timeline for the 2023-2024 window and a
conflicting 2025-2026 request. -/
theorem c9_witness :
    (stW.inst = some tlSingleton ∧
      tlSingleton.start_year = cfgW.start_year ∧
      tlSingleton.end_year = cfgW.end_year ∧
      (cfgOther.start_year ≠ cfgW.start_year ∨
        cfgOther.end_year ≠ cfgW.end_year)) ∧
    ((from_config stW cfgW ([] : List (Nat × Trip)) ([] : List (Nat × VisaPeriod)) true =
      (.ok tlSingleton, stW)) ∧
    (from_config stW cfgOther ([] : List (Nat × Trip)) ([] : List (Nat × VisaPeriod)) true =
      (.error "Timeline instance exists with a different range", stW)) ∧
    (∀ (st0 : SingletonState) (tm0 : List (Nat × Trip))
      (vm0 : List (Nat × VisaPeriod)) (u : DateTimeline) (st1 : SingletonState),
      from_config st0 cfgW tm0 vm0 true = (.ok u, st1) →
      st1.inst = some u ∧ u.start_year = cfgW.start_year ∧
        u.end_year = cfgW.end_year)) :=
  ⟨⟨rfl, rfl, rfl, by decide⟩,
    c9_singleton_accessor stW tlSingleton cfgW cfgOther [] [] [] []
      rfl rfl rfl (by decide)⟩

/-! Calendar arithmetic lemmas used by the out-of-range claim. -/

set_option maxHeartbeats 2000000 in
/-- Days-before-year increment: one civil year is 366 days when leap,
365 otherwise. -/
theorem dBY_succ (y : Nat) (hy : 1 ≤ y) :
    daysBeforeYear (y + 1) = daysBeforeYear y + (if isLeapYear y then 366 else 365) := by
  unfold daysBeforeYear isLeapYear
  split
  · rename_i h
    simp only [Bool.and_eq_true, Bool.or_eq_true, beq_iff_eq, bne_iff_ne, ne_eq] at h
    omega
  · rename_i h
    simp only [Bool.and_eq_true, Bool.or_eq_true, beq_iff_eq, bne_iff_ne, ne_eq] at h
    push_neg at h
    omega

/-- Days-before-year is monotone in the year. -/
theorem dBY_mono (a b : Nat) (h1 : 1 ≤ a) (hab : a ≤ b) :
    daysBeforeYear a ≤ daysBeforeYear b := by
  induction b, hab using Nat.le_induction with
  | base => exact le_refl _
  | succ b hb ih =>
    have hs := dBY_succ b (h1.trans hb)
    rw [hs]
    split <;> omega

/-- December 31st is the last ordinal before the next year begins. -/
theorem toOrd_1231 (y : Nat) (hy : 1 ≤ y) :
    toOrd y 12 31 = daysBeforeYear (y + 1) := by
  rw [dBY_succ y hy]
  unfold toOrd
  cases hL : isLeapYear y <;>
    simp only [daysBeforeMonth, daysInMonth, hL] <;> norm_num

/-- Ordinals of an earlier year precede January 1st of a later year. -/
theorem toOrd_year_lt (y1 y2 : Nat) (hy : 1 ≤ y1) (h : y1 < y2) :
    toOrd y1 12 31 < toOrd y2 1 1 := by
  rw [toOrd_1231 y1 hy]
  have := dBY_mono (y1 + 1) y2 (by omega) h
  unfold toOrd
  simp only [daysBeforeMonth]
  omega

/-- January 1st is the smallest ordinal of its year. -/
theorem toOrd_start_le (y m d : Nat) (hd : 1 ≤ d) :
    toOrd y 1 1 ≤ toOrd y m d := by
  unfold toOrd
  simp only [daysBeforeMonth]
  omega

/-- Every valid date of a year is at or before December 31st. -/
theorem toOrd_le_1231 (y m d : Nat) (hm1 : 1 ≤ m) (hm2 : m ≤ 12)
    (hd : d ≤ daysInMonth y m) : toOrd y m d ≤ toOrd y 12 31 := by
  unfold toOrd
  have : daysBeforeMonth y m + d ≤ daysBeforeMonth y 12 + 31 := by
    interval_cases m <;>
      cases hL : isLeapYear y <;>
        simp [daysBeforeMonth, daysInMonth, hL] at hd ⊢ <;> omega
  omega

/-- Last day of any month of a year is at or before December 31st. -/
theorem lastOfMonth_le (y m : Nat) (hy : 1 ≤ y) (hm1 : 1 ≤ m) (hm2 : m ≤ 12) :
    lastOfMonth y m ≤ toOrd y 12 31 := by
  unfold lastOfMonth
  by_cases h12 : m = 12
  · rw [if_pos h12, toOrd_1231 y hy]
    unfold toOrd
    simp only [daysBeforeMonth]
    omega
  · rw [if_neg h12]
    have hm11 : m ≤ 11 := by omega
    have : daysBeforeMonth y (m + 1) ≤ daysBeforeMonth y 12 + 30 := by
      interval_cases m <;>
        cases hL : isLeapYear y <;>
          simp [daysBeforeMonth, daysInMonth, hL]
    unfold toOrd
    omega

/-- Count of days a range update reports: one per range date present in the
timeline, since per-day updates neither add nor remove entries. -/
theorem updateRange_foldl_count (c : DayClassification) (ti : Option TripSummary)
    (vp : Option String) (l : List Nat) :
    ∀ (tl : DateTimeline) (n : Nat),
    (l.foldl (fun acc d =>
      let r := acc.1.update_day_classification d c ti vp
      (r.1, acc.2 + if r.2 then 1 else 0)) (tl, n)).2 =
      n + (l.filter (fun x => (tl.get_day x).isSome)).length := by
  induction l with
  | nil => intro tl n; simp
  | cons d ds ih =>
    intro tl n
    simp only [List.foldl_cons]
    rw [ih]
    have hflag := update_day_snd tl d c ti vp
    have hfil : ds.filter
        (fun x => (((tl.update_day_classification d c ti vp).1.get_day x).isSome)) =
        ds.filter (fun x => ((tl.get_day x).isSome)) := by
      apply List.filter_congr
      intro x _
      rw [update_day_get_day_isSome]
    rw [hfil, List.filter_cons]
    by_cases hd : (tl.get_day d).isSome = true
    · simp [hflag, hd]
      omega
    · simp only [Bool.not_eq_true] at hd
      simp [hflag, hd]

/-! C8 — out-of-range queries and mutations below the Python date cap. -/

/-- C8 counterexample: year 9999 lies outside the configured window of the
concrete timeline (2023 only), yet the source raises at Python date cap
instead of returning the empty results the claim promises:
get_days_in_month(9999, 12) raises ValueError constructing
date(10000, 1, 1), get_days_in_year(9999) raises OverflowError
incrementing past date.max, and a range update whose inclusive end is
9999-12-31 raises OverflowError after applying its updates. -/
theorem c8_cap_counterexample :
    tlEmpty.end_year < 9999 ∧
    tlEmpty.get_days_in_month 9999 12 ≠ .ok [] ∧
    tlEmpty.get_days_in_year 9999 ≠ .ok [] ∧
    (tlEmpty.update_date_range_classification pyDateMaxOrd pyDateMaxOrd
      .UNKNOWN none none).2 ≠ .ok 0 := by
  refine ⟨by decide, ?_, ?_, ?_⟩
  · intro h
    have h2 : tlEmpty.get_days_in_month 9999 12 =
        Except.error "ValueError: year 10000 is out of range" := by rfl
    rw [h2] at h
    exact Except.noConfusion h
  · intro h
    have h2 : tlEmpty.get_days_in_year 9999 =
        Except.error "OverflowError: date value out of range" := by rfl
    rw [h2] at h
    exact Except.noConfusion h
  · intro h
    have h2 : (tlEmpty.update_date_range_classification pyDateMaxOrd pyDateMaxOrd
        .UNKNOWN none none).2 =
        Except.error "OverflowError: date value out of range" := by rfl
    rw [h2] at h
    exact Except.noConfusion h

/-- C8 (amended): when the timeline owns only in-window dates, querying or
mutating outside the window does not raise, provided the inputs stay below
the Python date cap: an out-of-window date looks up as none, a month of an
out-of-window year (years 1..9999, excluding December 9999) and a year
(1..9998) outside the window yield an empty list, updating an out-of-window
date returns false and leaves the timeline unchanged, and a range update
whose end precedes 9999-12-31 returns exactly the count of range dates
present in the timeline, silently skipping the rest. -/
theorem c8_out_of_range_queries (tl : DateTimeline) (d y z m : Nat)
    (c : DayClassification) (ti : Option TripSummary) (vp : Option String)
    (hkeys : ∀ k : Nat, (tl.get_day k).isSome = true →
      tl.windowStart ≤ k ∧ k ≤ tl.windowEnd)
    (hdcap : d ≤ pyDateMaxOrd)
    (hd : d < tl.windowStart ∨ tl.windowEnd < d)
    (he1 : 1 ≤ tl.end_year)
    (hy1 : 1 ≤ y) (hy2 : y ≤ 9999)
    (hyout : y < tl.start_year ∨ tl.end_year < y)
    (hm1 : 1 ≤ m) (hm2 : m ≤ 12) (hcap : ¬(m = 12 ∧ y = 9999))
    (hz1 : 1 ≤ z) (hz2 : z ≤ 9998)
    (hzout : z < tl.start_year ∨ tl.end_year < z) :
    tl.get_day d = none ∧
    tl.get_days_in_month y m = .ok [] ∧
    tl.get_days_in_year z = .ok [] ∧
    tl.update_day_classification d c ti vp = (tl, false) ∧
    (∀ s e : Nat, e < pyDateMaxOrd →
      (tl.update_date_range_classification s e c ti vp).2 =
        .ok ((dateRange s e).filter (fun x => (tl.get_day x).isSome)).length) := by
  have hnone : ∀ k : Nat, (k < tl.windowStart ∨ tl.windowEnd < k) →
      tl.get_day k = none := by
    intro k hk
    cases hg : tl.get_day k with
    | none => rfl
    | some dy =>
      have := hkeys k (by rw [hg]; rfl)
      omega
  have hout : ∀ w x : Nat, 1 ≤ w → (w < tl.start_year ∨ tl.end_year < w) →
      toOrd w 1 1 ≤ x → x ≤ toOrd w 12 31 →
      (x < tl.windowStart ∨ tl.windowEnd < x) := by
    intro w x hw1 hwout hx1 hx2
    rcases hwout with hlt | hgt
    · left
      have := toOrd_year_lt w tl.start_year hw1 hlt
      unfold DateTimeline.windowStart
      omega
    · right
      have := toOrd_year_lt tl.end_year w he1 hgt
      unfold DateTimeline.windowEnd
      omega
  have hmonth : tl.collectDays (toOrd y m 1) (lastOfMonth y m) = [] := by
    unfold DateTimeline.collectDays
    apply List.filterMap_eq_nil_iff.mpr
    intro x hx
    unfold dateRange at hx
    rw [List.mem_range'_1] at hx
    apply hnone
    apply hout y x hy1 hyout
    · calc toOrd y 1 1 ≤ toOrd y m 1 := toOrd_start_le y m 1 (le_refl 1)
        _ ≤ x := hx.1
    · have hlast := lastOfMonth_le y m hy1 hm1 hm2
      omega
  have hyear : tl.collectDays (toOrd z 1 1) (toOrd z 12 31) = [] := by
    unfold DateTimeline.collectDays
    apply List.filterMap_eq_nil_iff.mpr
    intro x hx
    unfold dateRange at hx
    rw [List.mem_range'_1] at hx
    apply hnone
    apply hout z x hz1 hzout
    · exact hx.1
    · omega
  refine ⟨hnone d hd, ?_, ?_, ?_, ?_⟩
  · unfold DateTimeline.get_days_in_month
    rw [if_neg (not_not_intro ⟨hy1, hy2, hm1, hm2⟩), if_neg hcap, hmonth]
  · unfold DateTimeline.get_days_in_year
    rw [if_neg (not_not_intro ⟨hz1, by omega⟩), if_neg (by omega : ¬z = 9999),
      hyear]
  · unfold DateTimeline.update_day_classification
    have := hnone d hd
    unfold DateTimeline.get_day at this
    rw [this]
  · intro s e he
    have hcond : ¬(s ≤ e ∧ e = pyDateMaxOrd) := by
      rintro ⟨h1, h2⟩
      omega
    simp only [DateTimeline.update_date_range_classification, if_neg hcond]
    rw [updateRange_foldl_count, Nat.zero_add]

/-- C8 witness at the keyless timeline, date 0, month May 2022, year 2022. -/
theorem c8_witness :
    ((∀ k : Nat, (tlEmpty.get_day k).isSome = true →
        tlEmpty.windowStart ≤ k ∧ k ≤ tlEmpty.windowEnd) ∧
      (0 : Nat) ≤ pyDateMaxOrd ∧
      ((0 : Nat) < tlEmpty.windowStart ∨ tlEmpty.windowEnd < 0) ∧
      ((2022 : Nat) < tlEmpty.start_year ∨ tlEmpty.end_year < 2022) ∧
      ¬((5 : Nat) = 12 ∧ (2022 : Nat) = 9999)) ∧
    (tlEmpty.get_day 0 = none ∧
    tlEmpty.get_days_in_month 2022 5 = .ok [] ∧
    tlEmpty.get_days_in_year 2022 = .ok [] ∧
    tlEmpty.update_day_classification 0 .UNKNOWN none none = (tlEmpty, false) ∧
    (∀ s e : Nat, e < pyDateMaxOrd →
      (tlEmpty.update_date_range_classification s e .UNKNOWN none none).2 =
        .ok ((dateRange s e).filter (fun x => (tlEmpty.get_day x).isSome)).length)) := by
  constructor
  · refine ⟨?_, ?_, ?_, ?_, ?_⟩
    · intro k hk
      exact nomatch hk
    · decide
    · decide
    · decide
    · decide
  · exact c8_out_of_range_queries tlEmpty 0 2022 2022 5 .UNKNOWN none none
      (fun k hk => nomatch hk) (by decide) (by decide) (by decide) (by decide)
      (by decide) (by decide) (by decide) (by decide) (by decide) (by decide)
      (by decide) (by decide)

end CalendarApp
